import Mathlib

/-!
# ICS9LPR363 FSB control driver (`a8_fsb.c`)

A shallow embedding of the driver's register codec and control paths, and the
properties of the register codec / control engine proved over it.

Conventions of the embedding

* C `int` variables are `Int`; `unsigned`/`uint8_t`/`uint16_t` values are `Nat`.
  Conversions between them are the explicit two's complement maps `toU32` and
  `toS32`; unsigned 32-bit arithmetic is reduced `% 2^32` where the source
  computes in `unsigned int`.
* The driver's file-scope variables are the record `Globals`.
* Everything outside the driver (the I2C core, the chip, the kernel log, the
  uninitialised stack buffer) is the record `Kernel`.  Every I2C call the
  driver makes is appended to `Kernel.trace`, every `dev_*` message to
  `Kernel.dmesg`.
* One call of `ics9lpr363_GetFSB` or `ics9lpr363_SetFSB` is one bus transaction: it
  makes each kind of fallible I2C call at most once.  The flags `adapter_ok`,
  `client_ok`, `read_ok`, `write_ok` of the `Kernel` are the outcomes of the calls of
  the transaction in progress; `Kernel.later` schedules the outcomes of the following
  transactions, so that the calls of different transactions succeed or fail
  independently of each other.
* A block read returns `Kernel.regs`, and a block write that succeeds stores its bytes
  there.
* A sysfs `store` callback receives the value `sscanf` parsed from the
  user buffer and the byte count `count`; the textual parsing itself is libc
  and is not modelled.
-/

namespace ICS9LPR363

/-! ## Constants -/

/-- Source: `#define BYTECOUNT 21`. -/
def BYTECOUNT : Nat := 21
/-- Source: `#define CMD 0x00`. -/
def CMD : Nat := 0x00
/-- Source: `#define FSB_MAX 369000`. -/
def FSB_MAX : Int := 369000
/-- Source: `#define FSB_MIN 94500`. -/
def FSB_MIN : Int := 94500
/-- Linux `ENODEV`. -/
def ENODEV : Int := 19
/-- Linux `EINVAL`. -/
def EINVAL : Int := 22
/-- The kernel constant `I2C_SMBUS_BLOCK_MAX`, the size of the local `buf[32]`. -/
def I2C_SMBUS_BLOCK_MAX : Nat := 32

/-! ## Machine integers -/

/-- Conversion `int → unsigned int` (two's complement, 32 bit). -/
def toU32 (x : Int) : Nat := (x % 4294967296).toNat

/-- Conversion `unsigned int → int` (two's complement, 32 bit). -/
def toS32 (u : Nat) : Int :=
  if u % 4294967296 < 2147483648 then ((u % 4294967296 : Nat) : Int)
  else ((u % 4294967296 : Nat) : Int) - 4294967296

/-- Bitwise `a | b` on C `int`s. -/
def int_or (a b : Int) : Int := toS32 (toU32 a ||| toU32 b)

/-! ## Data model -/

/-- Source: `enum SetLogic { byPllStep = 1, byRaw }`. -/
inductive SetLogic
  | byPllStep
  | byRaw
  deriving DecidableEq, Repr

/-- The driver's file-scope variables. -/
structure Globals where
  /-- Source: `static uint8_t i2c_addr = 0x69` -/
  i2c_addr : Nat
  /-- Source: `static int i2c_adapter = 0` -/
  i2c_adapter : Int
  /-- Source: `static int pll_m = 8` -/
  pll_m : Int
  /-- Source: `static int fsb_freq = -1` (KHz) -/
  fsb_freq : Int
  /-- Source: `static int pll_step = -1` -/
  pll_step : Int
  /-- Source: `static uint16_t raw_ctrl_word = 0` -/
  raw_ctrl_word : Nat
  /-- Source: `static int pll_m_actual = -1` -/
  pll_m_actual : Int
  /-- Source: `static bool pll_m_unlock = false` -/
  pll_m_unlock : Bool
  deriving DecidableEq, Repr

/-- The initial values of the file-scope variables. -/
def Globals.init : Globals :=
  { i2c_addr := 0x69, i2c_adapter := 0, pll_m := 8, fsb_freq := -1, pll_step := -1,
    raw_ctrl_word := 0, pll_m_actual := -1, pll_m_unlock := false }

/-- The calls the driver makes into the I2C core. -/
inductive BusCall
  | get_adapter (nr : Int)
  | new_device (addr : Nat)
  | read_block (addr : Nat) (cmd : Nat)
  | write_block (addr : Nat) (cmd : Nat) (len : Nat) (data : List Nat)
  | unregister_device
  | put_adapter
  deriving DecidableEq, Repr

/-- The messages the driver sends to the kernel log. -/
inductive Msg
  | err_get_adapter
  | err_create_client
  | err_read (addr : Nat)
  | err_write (addr : Nat)
  | err_unexpected_0B (addr : Nat)
  | info_unknown_pll_m
  | err_wrong_addr (var : Nat)
  | err_wrong_raw
  | err_wrong_fsb (val : Int)
  | warn_force_pll_m (pll_m : Int)
  | info_set_fsb (fsb_freq : Int)
  | err_wrong_step (val : Int)
  | warn_guard_abort (pll_m pll_m_actual : Int)
  | info_guard_hint
  | err_wrong_pll_m (var : Int)
  deriving DecidableEq, Repr

/-- The outcomes of the fallible I2C calls of one bus transaction. -/
structure BusOutcome where
  /-- Whether `i2c_get_adapter` returns a non-NULL adapter. -/
  adapter_ok : Bool
  /-- Whether `i2c_new_device` returns a non-NULL client. -/
  client_ok : Bool
  /-- Whether `i2c_smbus_read_block_data` returns a non-negative count. -/
  read_ok : Bool
  /-- Whether `i2c_smbus_write_block_data` returns a non-negative value. -/
  write_ok : Bool
  deriving DecidableEq, Repr

/-- Everything outside the driver. -/
structure Kernel where
  /-- Whether the next `i2c_get_adapter` returns a non-NULL adapter. -/
  adapter_ok : Bool
  /-- Whether the next `i2c_new_device` returns a non-NULL client. -/
  client_ok : Bool
  /-- Whether the next `i2c_smbus_read_block_data` returns a non-negative count. -/
  read_ok : Bool
  /-- Whether the next `i2c_smbus_write_block_data` returns a non-negative value. -/
  write_ok : Bool
  /-- The outcomes of the bus transactions after the one in progress, in order. -/
  later : List BusOutcome
  /-- The chip's register block, as the block read returns it. -/
  regs : List Nat
  /-- The contents of the uninitialised `unsigned char buf[32]`. -/
  stack : List Nat
  /-- The I2C calls made so far, oldest first. -/
  trace : List BusCall
  /-- The kernel log, oldest first. -/
  dmesg : List Msg
  deriving DecidableEq, Repr

/-- Record an I2C call. -/
def Kernel.call (k : Kernel) (c : BusCall) : Kernel := { k with trace := k.trace ++ [c] }

/-- Record a kernel log message. -/
def Kernel.log (k : Kernel) (m : Msg) : Kernel := { k with dmesg := k.dmesg ++ [m] }

/-- The end of a bus transaction (the return of `ics9lpr363_GetFSB` or
`ics9lpr363_SetFSB`): the outcome flags become those scheduled for the next transaction;
once the schedule is exhausted the last outcomes persist. -/
def Kernel.finish (k : Kernel) : Kernel :=
  match k.later with
  | [] => k
  | o :: t =>
    { k with adapter_ok := o.adapter_ok, client_ok := o.client_ok, read_ok := o.read_ok,
             write_ok := o.write_ok, later := t }

/-- The local `buf` after a successful `i2c_smbus_read_block_data(client, CMD, buf)`:
the block the chip returned (at most 32 bytes) copied over the uninitialised buffer. -/
def read_buf (k : Kernel) : Nat → Nat :=
  fun i => if i < min k.regs.length I2C_SMBUS_BLOCK_MAX then k.regs.getD i 0 else k.stack.getD i 0

/-- The bytes `i2c_smbus_write_block_data(client, CMD, BYTECOUNT, buf)` sends. -/
def write_data (buf : Nat → Nat) : List Nat := (List.range BYTECOUNT).map buf

/-- The chip after a block write that succeeded: it stores the bytes written. -/
def Kernel.store (k : Kernel) (data : List Nat) : Kernel :=
  { k with regs := data ++ k.regs.drop data.length }

/-- The payloads of the block writes in a trace, oldest first. -/
def written_blocks : List BusCall → List (List Nat)
  | [] => []
  | BusCall.write_block _ _ _ d :: t => d :: written_blocks t
  | _ :: t => written_blocks t

/-! ## Register codec (write side) -/

/-- Source function `set_by_pll_step_logic(buf)`. -/
def set_by_pll_step_logic (g : Globals) (buf : Nat → Nat) : Nat → Nat :=
  let b1 : Nat → Nat :=
    if g.pll_step > 0x1FF then Function.update buf 0x0B 0xC0
    else if g.pll_step > 0xFF then Function.update buf 0x0B 0x40
    else Function.update buf 0x0B 0x80
  let b2 : Nat → Nat := Function.update b1 0x0B ((b1 0x0B ||| (toU32 g.pll_m &&& 0x3F)) % 256)
  Function.update b2 0x0C ((toU32 g.pll_step &&& 0xFF) % 256)

/-- Source function `set_by_raw_logic(buf)`. -/
def set_by_raw_logic (g : Globals) (buf : Nat → Nat) : Nat → Nat :=
  let b1 : Nat → Nat := Function.update buf 0x0B ((g.raw_ctrl_word >>> 8) &&& 0xFF)
  Function.update b1 0x0C (g.raw_ctrl_word &&& 0xFF)

/-- The `switch (setLogic)` of `ics9lpr363_SetFSB` (lines 98-111). -/
def SetFSB_switch (g : Globals) (setLogic : SetLogic) (buf : Nat → Nat) : Nat → Nat :=
  match setLogic with
  | .byPllStep => set_by_pll_step_logic g buf
  | .byRaw => set_by_raw_logic g buf

/-- Source function `ics9lpr363_SetFSB(dev, setLogic)`: read the block, patch the two control bytes,
write the block back. -/
def ics9lpr363_SetFSB (g : Globals) (k : Kernel) (setLogic : SetLogic) : Int × Kernel :=
  let k := k.call (.get_adapter g.i2c_adapter)
  if !k.adapter_ok then (-ENODEV, (k.log .err_get_adapter).finish) else
  let k := k.call (.new_device g.i2c_addr)
  if !k.client_ok then (-ENODEV, ((k.log .err_create_client).call .put_adapter).finish) else
  let k := k.call (.read_block g.i2c_addr CMD)
  if !k.read_ok then
    (-1, (((k.log (.err_read g.i2c_addr)).call .unregister_device).call .put_adapter).finish)
  else
  let buf := read_buf k
  let buf := SetFSB_switch g setLogic buf
  let k := k.call (.write_block g.i2c_addr CMD BYTECOUNT (write_data buf))
  let k := if k.write_ok then k.store (write_data buf) else k
  let k := (k.call .unregister_device).call .put_adapter
  if !k.write_ok then (-1, (k.log (.err_write g.i2c_addr)).finish) else
  (0, k.finish)

/-! ## Register codec (read side) -/

/-- Line 191 of `ics9lpr363_GetFSB`:
`((unsigned int)pll_step * 3578U) / 10 + FSB_MIN`, converted back to `int`. -/
def GetFSB_freq (pll_step : Int) : Int :=
  toS32 (((toU32 pll_step * 3578) % 4294967296 / 10 + toU32 FSB_MIN) % 4294967296)

/-- Source function `ics9lpr363_GetFSB(dev)`: read the block and decode the two control bytes
into `pll_step`, `raw_ctrl_word`, `pll_m_actual` and `fsb_freq`. -/
def ics9lpr363_GetFSB (g : Globals) (k : Kernel) : Int × Globals × Kernel :=
  let g := { g with pll_step := -1, fsb_freq := -1, raw_ctrl_word := 0, pll_m_actual := -1 }
  let k := k.call (.get_adapter g.i2c_adapter)
  if !k.adapter_ok then (-ENODEV, g, (k.log .err_get_adapter).finish) else
  let k := k.call (.new_device g.i2c_addr)
  if !k.client_ok then
    (-ENODEV, g, ((k.log .err_create_client).call .put_adapter).finish) else
  let k := k.call (.read_block g.i2c_addr CMD)
  if !k.read_ok then
    (-1, g,
      (((k.log (.err_read g.i2c_addr)).call .unregister_device).call .put_adapter).finish)
  else
  let buf := read_buf k
  let bad : Int × Globals × Kernel :=
    (-1, g,
      (((k.log (.err_unexpected_0B g.i2c_addr)).call .unregister_device).call
        .put_adapter).finish)
  let decode (step_mult : Int) : Int × Globals × Kernel :=
    let pll_step : Int := (buf 0x0C : Int) + 0x100 * step_mult
    let g := { g with pll_step := pll_step
                      raw_ctrl_word := ((buf 0x0B <<< 8) ||| buf 0x0C) % 65536
                      pll_m_actual := ((buf 0x0B &&& 0x3F : Nat) : Int) }
    if buf 0x0B &&& 0x3F ≠ 0x08 then
      (0, g, (((k.log .info_unknown_pll_m).call .unregister_device).call .put_adapter).finish)
    else
      (0, { g with fsb_freq := GetFSB_freq pll_step },
        ((k.call .unregister_device).call .put_adapter).finish)
  if buf 0x0B &&& 0xC0 = 0xC0 then decode 2
  else if buf 0x0B &&& 0xC0 = 0x40 then decode 1
  else if buf 0x0B &&& 0xC0 = 0x80 then decode 0
  else bad

/-! ## Sysfs store callbacks -/

/-- Source function `i2c_addr_store`; `var` is the `unsigned int` parsed with `%x`. -/
def i2c_addr_store (g : Globals) (k : Kernel) (var : Nat) (count : Nat) :
    Int × Globals × Kernel :=
  if var < 0x03 ∨ var > 0x77 then (-EINVAL, g, k.log (.err_wrong_addr var)) else
  (count, { g with i2c_addr := var &&& 0xFF }, k)

/-- Source function `i2c_adapter_store`. -/
def i2c_adapter_store (g : Globals) (k : Kernel) (val : Int) (count : Nat) :
    Int × Globals × Kernel :=
  (count, { g with i2c_adapter := val }, k)

/-- Source function `raw_store`; `var` is the `int` parsed with `%x`. -/
def raw_store (g : Globals) (k : Kernel) (var : Int) (count : Nat) : Int × Globals × Kernel :=
  if var < 0x0000 ∨ var > 0xFFFF then (-EINVAL, g, k.log .err_wrong_raw) else
  let g := { g with raw_ctrl_word := (toU32 var &&& 0xFFFF) % 65536 }
  let r := ics9lpr363_SetFSB g k .byRaw
  if r.1 ≠ 0 then (r.1, g, r.2) else
  (count, g, r.2)

/-- Lines 305-309 of `fsb_freq_store`: the step computed from the requested frequency,
`fsb_freq = val; fsb_freq += 2; pll_step = (unsigned int)(fsb_freq - FSB_MIN) * 10U / 3578U;`
followed by the clamp to `[0x00, 0x2ff]`. -/
def fsb_freq_store_step (val : Int) : Int :=
  let fsb_freq : Int := toS32 (toU32 (val + 2))
  let pll_step : Int := toS32 ((toU32 (fsb_freq - FSB_MIN) * 10) % 4294967296 / 3578)
  if pll_step < 0x00 then 0x00 else if pll_step > 0x2ff then 0x2ff else pll_step

/-- Source function `fsb_freq_store`. -/
def fsb_freq_store (g : Globals) (k : Kernel) (val : Int) (count : Nat) :
    Int × Globals × Kernel :=
  if val < FSB_MIN ∨ val > FSB_MAX then (-EINVAL, g, k.log (.err_wrong_fsb val)) else
  let gk : Globals × Kernel :=
    if g.pll_m ≠ 8 then ({ g with pll_m := 8 }, k.log (.warn_force_pll_m g.pll_m)) else (g, k)
  let g := { gk.1 with fsb_freq := toS32 (toU32 (val + 2)), pll_step := fsb_freq_store_step val }
  let r1 := ics9lpr363_SetFSB g gk.2 .byPllStep
  let r2 := ics9lpr363_GetFSB g r1.2
  let ret := int_or r1.1 r2.1
  if ret ≠ 0 then (ret, r2.2.1, r2.2.2) else
  (count, r2.2.1, r2.2.2.log (.info_set_fsb r2.2.1.fsb_freq))

/-- Source function `pll_step_store`. -/
def pll_step_store (g : Globals) (k : Kernel) (val : Int) (count : Nat) :
    Int × Globals × Kernel :=
  if val < 0x00 ∨ val > 0x2ff then (-EINVAL, g, k.log (.err_wrong_step val)) else
  let r := ics9lpr363_GetFSB g k
  if r.1 ≠ 0 then r else
  let g := r.2.1
  let k := r.2.2
  if !g.pll_m_unlock ∧ g.pll_m ≠ g.pll_m_actual then
    (-EINVAL, g, (k.log (.warn_guard_abort g.pll_m g.pll_m_actual)).log .info_guard_hint) else
  let g := { g with pll_step := val }
  let w := ics9lpr363_SetFSB g k .byPllStep
  if w.1 ≠ 0 then (w.1, g, w.2) else
  (count, g, w.2)

/-- Source function `pll_m_unlock_store`. -/
def pll_m_unlock_store (g : Globals) (k : Kernel) (val : Int) (count : Nat) :
    Int × Globals × Kernel :=
  (count, { g with pll_m_unlock := decide (val ≠ 0) }, k)

/-- Source function `pll_m_store`. -/
def pll_m_store (g : Globals) (k : Kernel) (var : Int) (count : Nat) : Int × Globals × Kernel :=
  if var < 0x00 ∨ var > 0x3F then (-EINVAL, g, k.log (.err_wrong_pll_m var)) else
  (count, { g with pll_m := ((toU32 var &&& 0x3F : Nat) : Int) }, k)

/-! ## The codec as the specification words it

The definitions of this section follow the specification text (section 4.1), not the
source; the theorems below compare them with the embedded source functions. -/

/-- Specification `frequencyToStep`: `clamp(((f + 2 - 94500) * 10) / 3578, 0, 767)`
with truncating division. -/
def frequencyToStep (f : Int) : Int :=
  max 0 (min 767 (Int.tdiv ((f + 2 - 94500) * 10) 3578))

/-- Specification `stepToFrequency`: `s * 3578 / 10 + 94500` with truncating division. -/
def stepToFrequency (s : Int) : Int := Int.tdiv (s * 3578) 10 + 94500

/-- Specification step multiplier: `[0,255] → 0`, `[256,511] → 1`, `[512,767] → 2`. -/
def stepMultiplier (step : Int) : Nat :=
  if step ≤ 255 then 0 else if step ≤ 511 then 1 else 2

/-- Specification top-two-bit pattern of a multiplier: `10` for 0, `01` for 1, `11` for 2. -/
def multiplierPattern (m : Nat) : Nat :=
  if m = 0 then 0b10 else if m = 1 then 0b01 else 0b11

/-- Specification `encodeByStep(step, pllM) = (highByte, lowByte)`: the multiplier's pattern
in the top two bits, the low six bits of `pllM` below them; `lowByte` is the low eight
bits of `step`. -/
def encodeByStep (step pllM : Int) : Nat × Nat :=
  ((multiplierPattern (stepMultiplier step) <<< 6) ||| (pllM % 64).toNat, (step % 256).toNat)

/-- The snapshot fields the driver holds: `(pll_step, raw_ctrl_word, pll_m_actual, fsb_freq)`. -/
def snapshot (g : Globals) : Int × Nat × Int × Int :=
  (g.pll_step, g.raw_ctrl_word, g.pll_m_actual, g.fsb_freq)

/-- The two control bytes `(buf[0x0B], buf[0x0C])` that `set_by_pll_step_logic` leaves in
the buffer when the globals hold `pll_step` and `pll_m`. -/
def ctrl_bytes_by_step (pll_step pll_m : Int) : Nat × Nat :=
  let b := set_by_pll_step_logic { Globals.init with pll_step := pll_step, pll_m := pll_m }
    (fun _ => 0)
  (b 0x0B, b 0x0C)

/-- Variant of `fsb_freq_store_step` with line 306 (`fsb_freq += 2`) removed. -/
def fsb_freq_store_step_noComp (val : Int) : Int :=
  let fsb_freq : Int := val
  let pll_step : Int := toS32 ((toU32 (fsb_freq - FSB_MIN) * 10) % 4294967296 / 3578)
  if pll_step < 0x00 then 0x00 else if pll_step > 0x2ff then 0x2ff else pll_step

/-- Variant of `fsb_freq_store_step` with line 309 (the clamp) removed. -/
def fsb_freq_store_step_noClamp (val : Int) : Int :=
  let fsb_freq : Int := toS32 (toU32 (val + 2))
  toS32 ((toU32 (fsb_freq - FSB_MIN) * 10) % 4294967296 / 3578)

/-- A kernel with a working bus and a chip whose control word is `0x8800`
(step 0, divisor 8). -/
def demoKernel : Kernel :=
  { adapter_ok := true, client_ok := true, read_ok := true, write_ok := true
    later := []
    regs := [0, 1, 2, 3, 4, 5, 6, 7, 8, 9, 10, 0x88, 0x00, 13, 14, 15, 16, 17, 18, 19, 20]
    stack := []
    trace := []
    dmesg := [] }

/-- The demo kernel with the control word replaced by `(hi, lo)`. -/
def demoKernelWith (hi lo : Nat) : Kernel :=
  { demoKernel with
    regs := [0, 1, 2, 3, 4, 5, 6, 7, 8, 9, 10, hi, lo, 13, 14, 15, 16, 17, 18, 19, 20] }

/-- The kernel `demoKernelWith hi lo` whose first transaction succeeds and whose second
transaction fails at the block read. -/
def demoKernelReadFailsLater (hi lo : Nat) : Kernel :=
  { demoKernelWith hi lo with
    later := [{ adapter_ok := true, client_ok := true, read_ok := false, write_ok := true }] }

/-- The initial globals with the divisor guard unlocked. -/
def demoUnlocked : Globals := { Globals.init with pll_m_unlock := true }

/-- The initial globals with the desired divisor set to 12. -/
def demoMismatch : Globals := { Globals.init with pll_m := 12 }

/-! ## Machine-integer lemmas -/

theorem toU32_natCast (n : Nat) (h : n < 4294967296) : toU32 (n : Int) = n := by
  unfold toU32; omega

theorem toU32_mod (x : Int) (d : Nat) (hd : d = 64 ∨ d = 256 ∨ d = 65536) :
    toU32 x % d = (x % (d : Int)).toNat := by
  unfold toU32
  rcases hd with rfl | rfl | rfl <;> omega

theorem toS32_of_lt (u : Nat) (h : u < 2147483648) : toS32 u = (u : Int) := by
  unfold toS32
  have : u % 4294967296 = u := by omega
  rw [this, if_pos h]

theorem toS32_toU32 (x : Int) (h : -2147483648 ≤ x) (h2 : x < 2147483648) :
    toS32 (toU32 x) = x := by
  unfold toS32 toU32
  split_ifs <;> omega

theorem and_0xFF (n : Nat) : n &&& 0xFF = n % 256 := by
  have := Nat.and_pow_two_sub_one_eq_mod n 8
  simpa using this

theorem and_0x3F (n : Nat) : n &&& 0x3F = n % 64 := by
  have := Nat.and_pow_two_sub_one_eq_mod n 6
  simpa using this

set_option maxRecDepth 100000 in
theorem and_0xC0 : ∀ h : Nat, h < 256 → h &&& 0xC0 = (h >>> 6) * 64 := by decide

set_option maxRecDepth 100000 in
theorem shr6_lt : ∀ h : Nat, h < 256 → h >>> 6 < 4 := by decide

set_option maxRecDepth 100000 in
theorem or_low6 : ∀ x : Nat, x < 64 →
    (0xC0 ||| x = 0xC0 + x) ∧ (0x40 ||| x = 0x40 + x) ∧ (0x80 ||| x = 0x80 + x) := by decide

theorem shl8_or (h l : Nat) (hl : l < 256) : (h <<< 8) ||| l = 256 * h + l := by
  have := Nat.mul_add_lt_is_or (show l < 2 ^ 8 by omega) h
  rw [Nat.shiftLeft_eq, Nat.mul_comm]
  simpa using this.symm

/-! ## Conversion lemmas -/

theorem fsb_freq_store_step_eq (f : Int) (h : 94500 ≤ f) (h2 : f ≤ 369000) :
    fsb_freq_store_step f = (f + 2 - 94500) * 10 / 3578 := by
  obtain ⟨n, hn⟩ : ∃ n : Nat, f + 2 - 94500 = (n : Int) := ⟨(f + 2 - 94500).toNat, by omega⟩
  have hn2 : n ≤ 274502 := by omega
  unfold fsb_freq_store_step FSB_MIN
  simp only []
  have e1 : toS32 (toU32 (f + 2)) = f + 2 := toS32_toU32 _ (by omega) (by omega)
  rw [e1, hn, toU32_natCast n (by omega), Nat.mod_eq_of_lt (by omega : n * 10 < 4294967296)]
  rw [toS32_of_lt _ (by omega)]
  split_ifs <;> omega

theorem fsb_freq_store_step_noClamp_eq (f : Int) (h : 94500 ≤ f) (h2 : f ≤ 369000) :
    fsb_freq_store_step_noClamp f = (f + 2 - 94500) * 10 / 3578 := by
  obtain ⟨n, hn⟩ : ∃ n : Nat, f + 2 - 94500 = (n : Int) := ⟨(f + 2 - 94500).toNat, by omega⟩
  have hn2 : n ≤ 274502 := by omega
  unfold fsb_freq_store_step_noClamp FSB_MIN
  simp only []
  have e1 : toS32 (toU32 (f + 2)) = f + 2 := toS32_toU32 _ (by omega) (by omega)
  rw [e1, hn, toU32_natCast n (by omega), Nat.mod_eq_of_lt (by omega : n * 10 < 4294967296)]
  rw [toS32_of_lt _ (by omega)]
  omega

theorem GetFSB_freq_eq (s : Int) (h : 0 ≤ s) (h2 : s ≤ 767) :
    GetFSB_freq s = s * 3578 / 10 + 94500 := by
  obtain ⟨n, rfl⟩ : ∃ n : Nat, s = (n : Int) := ⟨s.toNat, by omega⟩
  have hn2 : n ≤ 767 := by omega
  unfold GetFSB_freq FSB_MIN
  have e0 : toU32 94500 = 94500 := by decide
  rw [toU32_natCast n (by omega), e0, Nat.mod_eq_of_lt (by omega : n * 3578 < 4294967296),
    Nat.mod_eq_of_lt (by omega : n * 3578 / 10 + 94500 < 4294967296)]
  rw [toS32_of_lt _ (by omega)]
  omega

theorem frequencyToStep_eq (f : Int) (h : 94500 ≤ f) (h2 : f ≤ 369000) :
    frequencyToStep f = (f + 2 - 94500) * 10 / 3578 := by
  unfold frequencyToStep
  rw [Int.tdiv_eq_ediv (by omega) (by omega)]
  omega

theorem stepToFrequency_eq (s : Int) (h : 0 ≤ s) :
    stepToFrequency s = s * 3578 / 10 + 94500 := by
  unfold stepToFrequency
  rw [Int.tdiv_eq_ediv (by omega) (by omega)]

/-! ## Bus lemmas -/

@[simp] theorem call_adapter_ok (k : Kernel) (c : BusCall) :
    (k.call c).adapter_ok = k.adapter_ok := rfl
@[simp] theorem call_client_ok (k : Kernel) (c : BusCall) :
    (k.call c).client_ok = k.client_ok := rfl
@[simp] theorem call_read_ok (k : Kernel) (c : BusCall) : (k.call c).read_ok = k.read_ok := rfl
@[simp] theorem call_write_ok (k : Kernel) (c : BusCall) : (k.call c).write_ok = k.write_ok := rfl
@[simp] theorem call_regs (k : Kernel) (c : BusCall) : (k.call c).regs = k.regs := rfl
@[simp] theorem call_stack (k : Kernel) (c : BusCall) : (k.call c).stack = k.stack := rfl
@[simp] theorem call_dmesg (k : Kernel) (c : BusCall) : (k.call c).dmesg = k.dmesg := rfl
@[simp] theorem call_trace (k : Kernel) (c : BusCall) : (k.call c).trace = k.trace ++ [c] := rfl

@[simp] theorem log_adapter_ok (k : Kernel) (m : Msg) : (k.log m).adapter_ok = k.adapter_ok := rfl
@[simp] theorem log_client_ok (k : Kernel) (m : Msg) : (k.log m).client_ok = k.client_ok := rfl
@[simp] theorem log_read_ok (k : Kernel) (m : Msg) : (k.log m).read_ok = k.read_ok := rfl
@[simp] theorem log_write_ok (k : Kernel) (m : Msg) : (k.log m).write_ok = k.write_ok := rfl
@[simp] theorem log_regs (k : Kernel) (m : Msg) : (k.log m).regs = k.regs := rfl
@[simp] theorem log_stack (k : Kernel) (m : Msg) : (k.log m).stack = k.stack := rfl
@[simp] theorem log_trace (k : Kernel) (m : Msg) : (k.log m).trace = k.trace := rfl
@[simp] theorem log_dmesg (k : Kernel) (m : Msg) : (k.log m).dmesg = k.dmesg ++ [m] := rfl

@[simp] theorem store_adapter_ok (k : Kernel) (d : List Nat) :
    (k.store d).adapter_ok = k.adapter_ok := rfl
@[simp] theorem store_client_ok (k : Kernel) (d : List Nat) :
    (k.store d).client_ok = k.client_ok := rfl
@[simp] theorem store_read_ok (k : Kernel) (d : List Nat) : (k.store d).read_ok = k.read_ok := rfl
@[simp] theorem store_write_ok (k : Kernel) (d : List Nat) :
    (k.store d).write_ok = k.write_ok := rfl
@[simp] theorem store_regs (k : Kernel) (d : List Nat) :
    (k.store d).regs = d ++ k.regs.drop d.length := rfl
@[simp] theorem store_stack (k : Kernel) (d : List Nat) : (k.store d).stack = k.stack := rfl
@[simp] theorem store_trace (k : Kernel) (d : List Nat) : (k.store d).trace = k.trace := rfl
@[simp] theorem store_dmesg (k : Kernel) (d : List Nat) : (k.store d).dmesg = k.dmesg := rfl

@[simp] theorem finish_regs (k : Kernel) : k.finish.regs = k.regs := by
  unfold Kernel.finish; split <;> rfl
@[simp] theorem finish_stack (k : Kernel) : k.finish.stack = k.stack := by
  unfold Kernel.finish; split <;> rfl
@[simp] theorem finish_trace (k : Kernel) : k.finish.trace = k.trace := by
  unfold Kernel.finish; split <;> rfl
@[simp] theorem finish_dmesg (k : Kernel) : k.finish.dmesg = k.dmesg := by
  unfold Kernel.finish; split <;> rfl

@[simp] theorem read_buf_call (k : Kernel) (c : BusCall) : read_buf (k.call c) = read_buf k := rfl
@[simp] theorem read_buf_log (k : Kernel) (m : Msg) : read_buf (k.log m) = read_buf k := rfl

theorem written_blocks_append (a b : List BusCall) :
    written_blocks (a ++ b) = written_blocks a ++ written_blocks b := by
  induction a with
  | nil => rfl
  | cons c t ih => cases c <;> simp [written_blocks, ih]

theorem write_data_length (buf : Nat → Nat) : (write_data buf).length = 21 := by
  simp [write_data, BYTECOUNT]

theorem write_data_getD (buf : Nat → Nat) (i : Nat) (hi : i < 21) :
    (write_data buf).getD i 0 = buf i := by
  simp [write_data, BYTECOUNT, List.getD_eq_getElem?_getD, hi]

theorem read_buf_of_lt (k : Kernel) (i : Nat) (hi : i < k.regs.length) (h32 : i < 32) :
    read_buf k i = k.regs.getD i 0 := by
  simp [read_buf, I2C_SMBUS_BLOCK_MAX, hi, h32]

/-- The buffer transformation `ics9lpr363_SetFSB` applies between read and write. -/
theorem SetFSB_trace (g : Globals) (k : Kernel) (setLogic : SetLogic)
    (ha : k.adapter_ok = true) (hc : k.client_ok = true) (hr : k.read_ok = true) :
    (ics9lpr363_SetFSB g k setLogic).2.trace = k.trace ++
      [.get_adapter g.i2c_adapter, .new_device g.i2c_addr, .read_block g.i2c_addr CMD,
       .write_block g.i2c_addr CMD BYTECOUNT
         (write_data (SetFSB_switch g setLogic (read_buf k))),
       .unregister_device, .put_adapter] := by
  cases hw : k.write_ok <;> simp [ics9lpr363_SetFSB, ha, hc, hr, hw]

/-- When one of the calls before the block write fails, `ics9lpr363_SetFSB` returns a
negative value, writes nothing and leaves the chip alone. -/
theorem SetFSB_fail (g : Globals) (k : Kernel) (setLogic : SetLogic)
    (h : ¬ (k.adapter_ok = true ∧ k.client_ok = true ∧ k.read_ok = true)) :
    (ics9lpr363_SetFSB g k setLogic).1 < 0 ∧
    written_blocks (ics9lpr363_SetFSB g k setLogic).2.trace = written_blocks k.trace ∧
    (ics9lpr363_SetFSB g k setLogic).2.regs = k.regs := by
  cases ha : k.adapter_ok
  · simp [ics9lpr363_SetFSB, ha, ENODEV, written_blocks_append, written_blocks]
  cases hc : k.client_ok
  · simp [ics9lpr363_SetFSB, ha, hc, ENODEV, written_blocks_append, written_blocks]
  cases hr : k.read_ok
  · simp [ics9lpr363_SetFSB, ha, hc, hr, written_blocks_append, written_blocks]
  exact absurd ⟨ha, hc, hr⟩ h

/-! ## Codec lemmas -/

/-- The two control bytes `set_by_pll_step_logic` writes are the specification's
`encodeByStep` of the globals `pll_step` and `pll_m`. -/
theorem set_by_pll_step_logic_bytes (g : Globals) (buf : Nat → Nat) :
    (set_by_pll_step_logic g buf 0x0B, set_by_pll_step_logic g buf 0x0C) =
      encodeByStep g.pll_step g.pll_m := by
  have hm : toU32 g.pll_m &&& 0x3F = (g.pll_m % 64).toNat := by
    rw [and_0x3F, toU32_mod _ 64 (Or.inl rfl)]; rfl
  have hs : toU32 g.pll_step &&& 0xFF = (g.pll_step % 256).toNat := by
    rw [and_0xFF, toU32_mod _ 256 (Or.inr (Or.inl rfl))]; rfl
  have hx : (g.pll_m % 64).toNat < 64 := by omega
  have hy : (g.pll_step % 256).toNat % 256 = (g.pll_step % 256).toNat := by omega
  obtain ⟨o1, o2, o3⟩ := or_low6 _ hx
  simp only [set_by_pll_step_logic, encodeByStep, stepMultiplier, multiplierPattern, hm, hs, hy]
  by_cases h1 : g.pll_step > 0x1FF
  · have h2 : ¬ g.pll_step ≤ 255 := by omega
    have h3 : ¬ g.pll_step ≤ 511 := by omega
    simp [h1, h2, h3, Function.update, o1]
    omega
  · by_cases h2 : g.pll_step > 0xFF
    · have h3 : ¬ g.pll_step ≤ 255 := by omega
      have h4 : g.pll_step ≤ 511 := by omega
      simp [h1, h2, h3, h4, Function.update, o2]
      omega
    · have h3 : g.pll_step ≤ 255 := by omega
      simp [h1, h2, h3, Function.update, o3]
      omega

/-- The result of `ics9lpr363_GetFSB` on a bus whose read succeeds. -/
theorem GetFSB_read_ok (g : Globals) (k : Kernel)
    (ha : k.adapter_ok = true) (hc : k.client_ok = true) (hr : k.read_ok = true) :
    ics9lpr363_GetFSB g k =
      (let g0 : Globals :=
        { g with pll_step := -1, fsb_freq := -1, raw_ctrl_word := 0, pll_m_actual := -1 }
       let k0 : Kernel := ((k.call (.get_adapter g.i2c_adapter)).call
        (.new_device g.i2c_addr)).call (.read_block g.i2c_addr CMD)
       let buf := read_buf k
       let decode (step_mult : Int) : Int × Globals × Kernel :=
        if buf 0x0B &&& 0x3F ≠ 0x08 then
          (0, { g0 with pll_step := (buf 0x0C : Int) + 0x100 * step_mult
                        raw_ctrl_word := ((buf 0x0B <<< 8) ||| buf 0x0C) % 65536
                        pll_m_actual := ((buf 0x0B &&& 0x3F : Nat) : Int) },
            (((k0.log .info_unknown_pll_m).call .unregister_device).call .put_adapter).finish)
        else
          (0, { g0 with pll_step := (buf 0x0C : Int) + 0x100 * step_mult
                        raw_ctrl_word := ((buf 0x0B <<< 8) ||| buf 0x0C) % 65536
                        pll_m_actual := ((buf 0x0B &&& 0x3F : Nat) : Int)
                        fsb_freq := GetFSB_freq ((buf 0x0C : Int) + 0x100 * step_mult) },
            ((k0.call .unregister_device).call .put_adapter).finish)
       if buf 0x0B &&& 0xC0 = 0xC0 then decode 2
       else if buf 0x0B &&& 0xC0 = 0x40 then decode 1
       else if buf 0x0B &&& 0xC0 = 0x80 then decode 0
       else (-1, g0, (((k0.log (.err_unexpected_0B g.i2c_addr)).call .unregister_device).call
          .put_adapter).finish)) := by
  simp only [ics9lpr363_GetFSB, call_adapter_ok, call_client_ok, call_read_ok, ha, hc, hr,
    Bool.not_true, Bool.false_eq_true, if_false, read_buf_call]

/-- What `ics9lpr363_GetFSB` decodes from a block whose control bytes are `h` and `l`. -/
theorem GetFSB_decodes (g : Globals) (k : Kernel) (h l : Nat)
    (ha : k.adapter_ok = true) (hc : k.client_ok = true) (hr : k.read_ok = true)
    (hB : read_buf k 0x0B = h) (hC : read_buf k 0x0C = l) (hh : h < 256) (hl : l < 256) :
    ((ics9lpr363_GetFSB g k).1 ≠ 0 ↔ h >>> 6 = 0b00) ∧
    (h >>> 6 = 0b00 →
      (ics9lpr363_GetFSB g k).1 = -1 ∧
      (ics9lpr363_GetFSB g k).2.2.dmesg = k.dmesg ++ [.err_unexpected_0B g.i2c_addr]) ∧
    (h >>> 6 ≠ 0b00 →
      (ics9lpr363_GetFSB g k).1 = 0 ∧
      (ics9lpr363_GetFSB g k).2.1.pll_step =
        (l : Int) + 256 * (if h >>> 6 = 0b10 then 0 else if h >>> 6 = 0b01 then 1 else 2) ∧
      (ics9lpr363_GetFSB g k).2.1.raw_ctrl_word = 256 * h + l ∧
      (ics9lpr363_GetFSB g k).2.1.pll_m_actual = ((h &&& 0x3F : Nat) : Int) ∧
      (h &&& 0x3F = 8 →
        (ics9lpr363_GetFSB g k).2.1.fsb_freq =
          stepToFrequency (ics9lpr363_GetFSB g k).2.1.pll_step) ∧
      (h &&& 0x3F ≠ 8 →
        (ics9lpr363_GetFSB g k).2.1.fsb_freq = -1 ∧
        (ics9lpr363_GetFSB g k).2.2.dmesg = k.dmesg ++ [.info_unknown_pll_m])) := by
  have hC0 := and_0xC0 h hh
  have h4 := shr6_lt h hh
  have hraw : ((h <<< 8) ||| l) % 65536 = 256 * h + l := by
    rw [shl8_or h l hl]; omega
  have hcases : h >>> 6 = 0 ∨ h >>> 6 = 1 ∨ h >>> 6 = 2 ∨ h >>> 6 = 3 := by omega
  rw [GetFSB_read_ok g k ha hc hr]
  rcases hcases with e | e | e | e
  · have hz : h &&& 0xC0 = 0 := by rw [hC0, e]
    simp [hB, hC, hz, e]
  · have hz : h &&& 0xC0 = 0x40 := by rw [hC0, e]
    have hfreq : GetFSB_freq ((l : Int) + 256) = stepToFrequency ((l : Int) + 256) := by
      rw [GetFSB_freq_eq _ (by omega) (by omega), stepToFrequency_eq _ (by omega)]
    by_cases h8 : h &&& 0x3F = 8 <;>
      simp [hB, hC, hz, e, h8, hraw, hfreq]
  · have hz : h &&& 0xC0 = 0x80 := by rw [hC0, e]
    have hfreq : GetFSB_freq (l : Int) = stepToFrequency (l : Int) := by
      rw [GetFSB_freq_eq _ (by omega) (by omega), stepToFrequency_eq _ (by omega)]
    by_cases h8 : h &&& 0x3F = 8 <;>
      simp [hB, hC, hz, e, h8, hraw, hfreq]
  · have hz : h &&& 0xC0 = 0xC0 := by rw [hC0, e]
    have hfreq : GetFSB_freq ((l : Int) + 512) = stepToFrequency ((l : Int) + 512) := by
      rw [GetFSB_freq_eq _ (by omega) (by omega), stepToFrequency_eq _ (by omega)]
    by_cases h8 : h &&& 0x3F = 8 <;>
      simp [hB, hC, hz, e, h8, hraw, hfreq]

/-- The result of `ics9lpr363_GetFSB` when `i2c_get_adapter` fails. -/
theorem GetFSB_no_adapter (g : Globals) (k : Kernel) (ha : k.adapter_ok = false) :
    ics9lpr363_GetFSB g k =
      (-ENODEV,
        { g with pll_step := -1, fsb_freq := -1, raw_ctrl_word := 0, pll_m_actual := -1 },
        ((k.call (.get_adapter g.i2c_adapter)).log .err_get_adapter).finish) := by
  simp only [ics9lpr363_GetFSB, call_adapter_ok, ha, Bool.not_false, if_true]

/-- The result of `ics9lpr363_GetFSB` when `i2c_new_device` fails. -/
theorem GetFSB_no_client (g : Globals) (k : Kernel) (ha : k.adapter_ok = true)
    (hc : k.client_ok = false) :
    ics9lpr363_GetFSB g k =
      (-ENODEV,
        { g with pll_step := -1, fsb_freq := -1, raw_ctrl_word := 0, pll_m_actual := -1 },
        ((((k.call (.get_adapter g.i2c_adapter)).call (.new_device g.i2c_addr)).log
          .err_create_client).call .put_adapter).finish) := by
  simp only [ics9lpr363_GetFSB, call_adapter_ok, call_client_ok, ha, hc, Bool.not_true,
    Bool.not_false, Bool.false_eq_true, if_false, if_true]

/-- The result of `ics9lpr363_GetFSB` when the block read fails. -/
theorem GetFSB_read_fail (g : Globals) (k : Kernel) (ha : k.adapter_ok = true)
    (hc : k.client_ok = true) (hr : k.read_ok = false) :
    ics9lpr363_GetFSB g k =
      (-1,
        { g with pll_step := -1, fsb_freq := -1, raw_ctrl_word := 0, pll_m_actual := -1 },
        ((((((k.call (.get_adapter g.i2c_adapter)).call (.new_device g.i2c_addr)).call
          (.read_block g.i2c_addr CMD)).log (.err_read g.i2c_addr)).call
          .unregister_device).call .put_adapter).finish) := by
  simp only [ics9lpr363_GetFSB, call_adapter_ok, call_client_ok, call_read_ok, ha, hc, hr,
    Bool.not_true, Bool.not_false, Bool.false_eq_true, if_false, if_true]

/-- The frame of `ics9lpr363_GetFSB`, stated on the components of its result. -/
theorem GetFSB_frame_aux (g : Globals) (k : Kernel) :
    ∃ (r : Int) (g1 : Globals) (k1 : Kernel), ics9lpr363_GetFSB g k = (r, g1, k1) ∧
      written_blocks k1.trace = written_blocks k.trace ∧ k1.regs = k.regs ∧
      k1.stack = k.stack ∧ g1.pll_m = g.pll_m ∧
      g1.pll_m_unlock = g.pll_m_unlock ∧ g1.i2c_addr = g.i2c_addr ∧
      g1.i2c_adapter = g.i2c_adapter := by
  cases ha : k.adapter_ok
  · exact ⟨_, _, _, GetFSB_no_adapter g k ha, by
      simp [written_blocks_append, written_blocks, ha]⟩
  cases hc : k.client_ok
  · exact ⟨_, _, _, GetFSB_no_client g k ha hc, by
      simp [written_blocks_append, written_blocks, ha, hc]⟩
  cases hr : k.read_ok
  · exact ⟨_, _, _, GetFSB_read_fail g k ha hc hr, by
      simp [written_blocks_append, written_blocks, ha, hc, hr]⟩
  rw [GetFSB_read_ok g k ha hc hr]
  simp only []
  split_ifs <;>
    exact ⟨_, _, _, rfl, by simp [written_blocks_append, written_blocks, ha, hc, hr]⟩

/-- What `ics9lpr363_GetFSB` leaves alone: the chip and the configuration globals; and
it issues no block write. -/
theorem GetFSB_frame (g : Globals) (k : Kernel) :
    written_blocks (ics9lpr363_GetFSB g k).2.2.trace = written_blocks k.trace ∧
    (ics9lpr363_GetFSB g k).2.2.regs = k.regs ∧
    (ics9lpr363_GetFSB g k).2.2.stack = k.stack ∧
    (ics9lpr363_GetFSB g k).2.1.pll_m = g.pll_m ∧
    (ics9lpr363_GetFSB g k).2.1.pll_m_unlock = g.pll_m_unlock ∧
    (ics9lpr363_GetFSB g k).2.1.i2c_addr = g.i2c_addr ∧
    (ics9lpr363_GetFSB g k).2.1.i2c_adapter = g.i2c_adapter := by
  obtain ⟨r, g1, k1, hres, facts⟩ := GetFSB_frame_aux g k
  rw [hres]
  exact facts

/-- The block write `ics9lpr363_SetFSB` issues in step mode carries `encodeByStep`. -/
theorem SetFSB_byPllStep_bytes (g : Globals) (k : Kernel) :
    ((write_data (SetFSB_switch g .byPllStep (read_buf k))).getD 0x0B 0,
     (write_data (SetFSB_switch g .byPllStep (read_buf k))).getD 0x0C 0) =
      encodeByStep g.pll_step g.pll_m := by
  rw [write_data_getD _ _ (by decide), write_data_getD _ _ (by decide)]
  exact set_by_pll_step_logic_bytes g (read_buf k)

/-- Decoding facts about the specification's `encodeByStep` for a step in `[0,767]`. -/
theorem encodeByStep_facts (step m : Int) (h0 : 0 ≤ step) (h1 : step ≤ 767) :
    (encodeByStep step m).1 < 256 ∧ (encodeByStep step m).2 < 256 ∧
    (encodeByStep step m).1 >>> 6 ≠ 0b00 ∧
    ((encodeByStep step m).2 : Int) + 256 *
      (if (encodeByStep step m).1 >>> 6 = 0b10 then 0
       else if (encodeByStep step m).1 >>> 6 = 0b01 then 1 else 2) = step ∧
    (encodeByStep step m).1 &&& 0x3F = (m % 64).toNat := by
  have hx : (m % 64).toNat < 64 := by omega
  obtain ⟨o1, o2, o3⟩ := or_low6 _ hx
  have e1 : (0b11 <<< 6 : Nat) ||| (m % 64).toNat = 192 + (m % 64).toNat := o1
  have e2 : (0b01 <<< 6 : Nat) ||| (m % 64).toNat = 64 + (m % 64).toNat := o2
  have e3 : (0b10 <<< 6 : Nat) ||| (m % 64).toNat = 128 + (m % 64).toNat := o3
  simp only [encodeByStep, stepMultiplier, multiplierPattern, and_0x3F,
    Nat.shiftRight_eq_div_pow]
  by_cases c1 : step ≤ 255
  · simp only [c1, if_true, e3]
    norm_num
    omega
  · by_cases c2 : step ≤ 511
    · simp only [c1, c2, if_true, if_false, e2]
      norm_num
      omega
    · simp only [c1, c2, if_false, e1]
      norm_num
      omega

/-! ## Claims -/

/-- C1: for every 21-byte register block the block read returns and for both write
strategies (step-based and raw-word), the block `ics9lpr363_SetFSB` hands to the block write
has 21 bytes and equals the block read at every offset other than `0x0B` and `0x0C`. -/
theorem C1_SetFSB_preserves_other_bytes (g : Globals) (k : Kernel) (setLogic : SetLogic)
    (ha : k.adapter_ok = true) (hc : k.client_ok = true) (hr : k.read_ok = true)
    (hlen : k.regs.length = 21) :
    ∃ data : List Nat,
      written_blocks (ics9lpr363_SetFSB g k setLogic).2.trace = written_blocks k.trace ++ [data] ∧
      data.length = 21 ∧
      ∀ i : Nat, i < 21 → i ≠ 0x0B → i ≠ 0x0C → data.getD i 0 = k.regs.getD i 0 := by
  refine ⟨write_data (SetFSB_switch g setLogic (read_buf k)), ?_, write_data_length _, ?_⟩
  · rw [SetFSB_trace g k setLogic ha hc hr, written_blocks_append]
    simp only [written_blocks]
  · intro i hi h1 h2
    rw [write_data_getD _ i hi, ← read_buf_of_lt k i (by omega) (by omega)]
    cases setLogic
    · simp only [SetFSB_switch, set_by_pll_step_logic]
      split_ifs <;> simp [Function.update, h1, h2]
    · simp [SetFSB_switch, set_by_raw_logic, Function.update, h1, h2]

/-- Witness for C1: the raw-word write on the demo kernel. -/
theorem C1_SetFSB_preserves_other_bytes_witness :
    ∃ data : List Nat,
      written_blocks (ics9lpr363_SetFSB Globals.init demoKernel .byRaw).2.trace =
        written_blocks demoKernel.trace ++ [data] ∧
      data.length = 21 ∧
      ∀ i : Nat, i < 21 → i ≠ 0x0B → i ≠ 0x0C → data.getD i 0 = demoKernel.regs.getD i 0 :=
  C1_SetFSB_preserves_other_bytes Globals.init demoKernel .byRaw rfl rfl rfl rfl

/-- C2: for every step in `[0,767]`, when the guard read of the chip succeeds and the
divisor it reports differs from the desired `pll_m`: with the guard locked `pll_step_store`
returns `-EINVAL` after logging the guard warning, issues no block write and leaves the
register block unchanged; with the guard unlocked it goes on to the read-modify-write, which
issues a block write whose control bytes are `encodeByStep step pll_m` when its own
`i2c_get_adapter`, `i2c_new_device` and block read succeed, and otherwise returns a negative
value without any block write. -/
theorem C2_guard (g : Globals) (k : Kernel) (val : Int) (count : Nat)
    (h0 : 0 ≤ val) (h1 : val ≤ 767)
    (hget : (ics9lpr363_GetFSB g k).1 = 0)
    (hmis : (ics9lpr363_GetFSB g k).2.1.pll_m_actual ≠ g.pll_m) :
    (g.pll_m_unlock = false →
      (pll_step_store g k val count).1 = -EINVAL ∧
      written_blocks (pll_step_store g k val count).2.2.trace = written_blocks k.trace ∧
      (pll_step_store g k val count).2.2.regs = k.regs ∧
      (pll_step_store g k val count).2.2.dmesg = (ics9lpr363_GetFSB g k).2.2.dmesg ++
        [.warn_guard_abort g.pll_m (ics9lpr363_GetFSB g k).2.1.pll_m_actual, .info_guard_hint]) ∧
    (g.pll_m_unlock = true →
      (((ics9lpr363_GetFSB g k).2.2.adapter_ok = true ∧
          (ics9lpr363_GetFSB g k).2.2.client_ok = true ∧
          (ics9lpr363_GetFSB g k).2.2.read_ok = true) →
        ∃ data : List Nat,
          written_blocks (pll_step_store g k val count).2.2.trace =
            written_blocks k.trace ++ [data] ∧
          (data.getD 0x0B 0, data.getD 0x0C 0) = encodeByStep val g.pll_m) ∧
      (¬ ((ics9lpr363_GetFSB g k).2.2.adapter_ok = true ∧
          (ics9lpr363_GetFSB g k).2.2.client_ok = true ∧
          (ics9lpr363_GetFSB g k).2.2.read_ok = true) →
        (pll_step_store g k val count).1 < 0 ∧
        written_blocks (pll_step_store g k val count).2.2.trace = written_blocks k.trace ∧
        (pll_step_store g k val count).2.2.regs = k.regs)) := by
  obtain ⟨fw, fregs, -, fm, fu, -, -⟩ := GetFSB_frame g k
  have hrange : ¬ (val < 0x00 ∨ val > 0x2ff) := by omega
  constructor
  · intro hu
    have hguard : (!(ics9lpr363_GetFSB g k).2.1.pll_m_unlock) = true ∧
        (ics9lpr363_GetFSB g k).2.1.pll_m ≠ (ics9lpr363_GetFSB g k).2.1.pll_m_actual := by
      rw [fu, fm, hu]; exact ⟨rfl, fun e => hmis e.symm⟩
    simp only [pll_step_store, if_neg hrange, hget, ne_eq, not_true_eq_false, if_false,
      if_pos hguard]
    simp [fw, fregs, fm]
  · intro hu
    have hguard : ¬ ((!(ics9lpr363_GetFSB g k).2.1.pll_m_unlock) = true ∧
        (ics9lpr363_GetFSB g k).2.1.pll_m ≠ (ics9lpr363_GetFSB g k).2.1.pll_m_actual) := by
      rw [fu, hu]; simp
    have hres : pll_step_store g k val count =
        if (ics9lpr363_SetFSB { (ics9lpr363_GetFSB g k).2.1 with pll_step := val }
            (ics9lpr363_GetFSB g k).2.2 .byPllStep).1 ≠ 0 then
          ((ics9lpr363_SetFSB { (ics9lpr363_GetFSB g k).2.1 with pll_step := val }
              (ics9lpr363_GetFSB g k).2.2 .byPllStep).1,
            { (ics9lpr363_GetFSB g k).2.1 with pll_step := val },
            (ics9lpr363_SetFSB { (ics9lpr363_GetFSB g k).2.1 with pll_step := val }
              (ics9lpr363_GetFSB g k).2.2 .byPllStep).2)
        else
          ((count : Int), { (ics9lpr363_GetFSB g k).2.1 with pll_step := val },
            (ics9lpr363_SetFSB { (ics9lpr363_GetFSB g k).2.1 with pll_step := val }
              (ics9lpr363_GetFSB g k).2.2 .byPllStep).2) := by
      simp only [pll_step_store, if_neg hrange, hget, ne_eq, not_true_eq_false, if_false,
        if_neg hguard]
    constructor
    · rintro ⟨sa, sc, sr⟩
      refine ⟨write_data (SetFSB_switch { (ics9lpr363_GetFSB g k).2.1 with pll_step := val }
        .byPllStep (read_buf (ics9lpr363_GetFSB g k).2.2)), ?_, ?_⟩
      · have ht := SetFSB_trace { (ics9lpr363_GetFSB g k).2.1 with pll_step := val }
          (ics9lpr363_GetFSB g k).2.2 .byPllStep sa sc sr
        rw [hres]
        split_ifs <;> simp only [ht, written_blocks_append, written_blocks, fw]
      · rw [SetFSB_byPllStep_bytes]
        simp only [fm]
    · intro hbus
      obtain ⟨e1, e2, e3⟩ := SetFSB_fail { (ics9lpr363_GetFSB g k).2.1 with pll_step := val }
        (ics9lpr363_GetFSB g k).2.2 .byPllStep hbus
      have hne : (ics9lpr363_SetFSB { (ics9lpr363_GetFSB g k).2.1 with pll_step := val }
          (ics9lpr363_GetFSB g k).2.2 .byPllStep).1 ≠ 0 := by omega
      rw [hres, if_pos hne]
      exact ⟨e1, e2.trans fw, e3.trans fregs⟩

/-- Witness for C2: the chip reports divisor 10 (control word `0x4A08`), the desired
divisor is 8. Locked, the store is rejected. Unlocked on a working bus, it writes
`encodeByStep 300 8`. Unlocked on a bus whose second block read fails, it returns a
negative value and writes nothing. -/
theorem C2_guard_witness :
    ((pll_step_store Globals.init (demoKernelWith 0x4A 0x08) 300 4).1 = -EINVAL ∧
      written_blocks (pll_step_store Globals.init (demoKernelWith 0x4A 0x08) 300 4).2.2.trace =
        written_blocks (demoKernelWith 0x4A 0x08).trace ∧
      (pll_step_store Globals.init (demoKernelWith 0x4A 0x08) 300 4).2.2.regs =
        (demoKernelWith 0x4A 0x08).regs ∧
      (pll_step_store Globals.init (demoKernelWith 0x4A 0x08) 300 4).2.2.dmesg =
        (ics9lpr363_GetFSB Globals.init (demoKernelWith 0x4A 0x08)).2.2.dmesg ++
          [.warn_guard_abort 8 10, .info_guard_hint]) ∧
    (∃ data : List Nat,
      written_blocks (pll_step_store demoUnlocked (demoKernelWith 0x4A 0x08) 300 4).2.2.trace =
        written_blocks (demoKernelWith 0x4A 0x08).trace ++ [data] ∧
      (data.getD 0x0B 0, data.getD 0x0C 0) = encodeByStep 300 8) ∧
    ((pll_step_store demoUnlocked (demoKernelReadFailsLater 0x4A 0x08) 300 4).1 < 0 ∧
      written_blocks
        (pll_step_store demoUnlocked (demoKernelReadFailsLater 0x4A 0x08) 300 4).2.2.trace =
        written_blocks (demoKernelReadFailsLater 0x4A 0x08).trace ∧
      (pll_step_store demoUnlocked (demoKernelReadFailsLater 0x4A 0x08) 300 4).2.2.regs =
        (demoKernelReadFailsLater 0x4A 0x08).regs) :=
  ⟨(C2_guard Globals.init (demoKernelWith 0x4A 0x08) 300 4 (by decide) (by decide)
      (by decide) (by decide)).1 rfl,
   ((C2_guard demoUnlocked (demoKernelWith 0x4A 0x08) 300 4 (by decide) (by decide)
      (by decide) (by decide)).2 rfl).1 (by decide),
   ((C2_guard demoUnlocked (demoKernelReadFailsLater 0x4A 0x08) 300 4 (by decide) (by decide)
      (by decide) (by decide)).2 rfl).2 (by decide)⟩

/-- C3: an address outside `[0x03,0x77]`, a step outside `[0,767]`, a frequency outside
`[94500,369000]` and a divisor outside `[0,63]` are each rejected with `-EINVAL`, with the
globals unchanged and without any I2C call (the trace and the register block are unchanged). -/
theorem C3_out_of_range_rejected (g : Globals) (k : Kernel) (count : Nat) :
    (∀ var : Nat, var < 0x03 ∨ 0x77 < var →
      (i2c_addr_store g k var count).1 = -EINVAL ∧
      (i2c_addr_store g k var count).2.1 = g ∧
      (i2c_addr_store g k var count).2.2.trace = k.trace ∧
      (i2c_addr_store g k var count).2.2.regs = k.regs) ∧
    (∀ val : Int, val < 0 ∨ 767 < val →
      (pll_step_store g k val count).1 = -EINVAL ∧
      (pll_step_store g k val count).2.1 = g ∧
      (pll_step_store g k val count).2.2.trace = k.trace ∧
      (pll_step_store g k val count).2.2.regs = k.regs) ∧
    (∀ val : Int, val < 94500 ∨ 369000 < val →
      (fsb_freq_store g k val count).1 = -EINVAL ∧
      (fsb_freq_store g k val count).2.1 = g ∧
      (fsb_freq_store g k val count).2.2.trace = k.trace ∧
      (fsb_freq_store g k val count).2.2.regs = k.regs) ∧
    (∀ var : Int, var < 0 ∨ 63 < var →
      (pll_m_store g k var count).1 = -EINVAL ∧
      (pll_m_store g k var count).2.1 = g ∧
      (pll_m_store g k var count).2.2.trace = k.trace ∧
      (pll_m_store g k var count).2.2.regs = k.regs) := by
  refine ⟨?_, ?_, ?_, ?_⟩
  · intro var h
    have h' : var < 0x03 ∨ var > 0x77 := h
    simp [i2c_addr_store, h']
  · intro val h
    have h' : val < 0x00 ∨ val > 0x2ff := h
    simp [pll_step_store, h']
  · intro val h
    have h' : val < FSB_MIN ∨ val > FSB_MAX := h
    simp [fsb_freq_store, h']
  · intro var h
    have h' : var < 0x00 ∨ var > 0x3F := h
    simp [pll_m_store, h']

/-- Witness for C3: address `0x78`, step 768, frequency 94499 and divisor 64. -/
theorem C3_out_of_range_rejected_witness :
    (i2c_addr_store Globals.init demoKernel 0x78 5).1 = -EINVAL ∧
    (pll_step_store Globals.init demoKernel 768 4).2.2.trace = demoKernel.trace ∧
    (fsb_freq_store Globals.init demoKernel 94499 6).2.2.trace = demoKernel.trace ∧
    (pll_m_store Globals.init demoKernel 64 3).2.1 = Globals.init :=
  ⟨((C3_out_of_range_rejected Globals.init demoKernel 5).1 0x78 (by decide)).1,
   ((C3_out_of_range_rejected Globals.init demoKernel 4).2.1 768 (by decide)).2.2.1,
   ((C3_out_of_range_rejected Globals.init demoKernel 6).2.2.1 94499 (by decide)).2.2.1,
   ((C3_out_of_range_rejected Globals.init demoKernel 3).2.2.2 64 (by decide)).2.1⟩

/-- C4: for every frequency in `[94500,369000]`, whatever the prior desired divisor, the
divisor on the chip and the guard flag, `fsb_freq_store` on a bus whose read succeeds leaves
the desired divisor at 8 and issues one block write whose control bytes are
`encodeByStep (frequencyToStep f) 8`; the step the code computes is `frequencyToStep f`. -/
theorem C4_setFrequency (g : Globals) (k : Kernel) (f : Int) (count : Nat)
    (hf0 : 94500 ≤ f) (hf1 : f ≤ 369000)
    (ha : k.adapter_ok = true) (hc : k.client_ok = true) (hr : k.read_ok = true) :
    (fsb_freq_store g k f count).2.1.pll_m = 8 ∧
    fsb_freq_store_step f = frequencyToStep f ∧
    ∃ data : List Nat,
      written_blocks (fsb_freq_store g k f count).2.2.trace = written_blocks k.trace ++ [data] ∧
      (data.getD 0x0B 0, data.getD 0x0C 0) = encodeByStep (frequencyToStep f) 8 := by
  have hstep : fsb_freq_store_step f = frequencyToStep f := by
    rw [fsb_freq_store_step_eq f hf0 hf1, frequencyToStep_eq f hf0 hf1]
  have hrange : ¬ (f < FSB_MIN ∨ f > FSB_MAX) := by
    simp only [FSB_MIN, FSB_MAX]; omega
  -- the globals and kernel after the `pll_m` forcing
  obtain ⟨g1, k1, hgk, hm, hka, hkc, hkr, hkt⟩ : ∃ g1 k1,
      (if g.pll_m ≠ 8 then ({ g with pll_m := 8 }, k.log (.warn_force_pll_m g.pll_m))
        else (g, k)) = (g1, k1) ∧ g1.pll_m = 8 ∧ k1.adapter_ok = true ∧ k1.client_ok = true ∧
        k1.read_ok = true ∧ k1.trace = k.trace := by
    by_cases h8 : g.pll_m = 8
    · exact ⟨g, k, by simp [h8], h8, ha, hc, hr, rfl⟩
    · exact ⟨{ g with pll_m := 8 }, k.log (.warn_force_pll_m g.pll_m), by simp [h8], rfl,
        ha, hc, hr, rfl⟩
  set g2 : Globals :=
    { g1 with fsb_freq := toS32 (toU32 (f + 2)), pll_step := fsb_freq_store_step f } with hg2
  have ht := SetFSB_trace g2 k1 .byPllStep hka hkc hkr
  obtain ⟨fw, -, -, fm, -, -, -⟩ :=
    GetFSB_frame g2 (ics9lpr363_SetFSB g2 k1 .byPllStep).2
  have hres : (fsb_freq_store g k f count).2.1 =
        (ics9lpr363_GetFSB g2 (ics9lpr363_SetFSB g2 k1 .byPllStep).2).2.1 ∧
      (fsb_freq_store g k f count).2.2.trace =
        (ics9lpr363_GetFSB g2 (ics9lpr363_SetFSB g2 k1 .byPllStep).2).2.2.trace := by
    simp only [fsb_freq_store, if_neg hrange, hgk, ← hg2]
    split_ifs <;> simp
  refine ⟨?_, hstep, write_data (SetFSB_switch g2 .byPllStep (read_buf k1)), ?_, ?_⟩
  · rw [hres.1, fm]; exact hm
  · rw [hres.2, fw, ht, written_blocks_append, hkt]
    simp only [written_blocks]
  · rw [SetFSB_byPllStep_bytes, ← hstep]
    simp only [hg2, hm]

/-- Witness for C4: 200000 KHz gives step 294 and the bytes `0x48`, `0x26`, with the
desired divisor previously 12, the chip at divisor 10 and the guard locked. -/
theorem C4_setFrequency_witness :
    frequencyToStep 200000 = 294 ∧ encodeByStep 294 8 = (0x48, 0x26) ∧
    ((fsb_freq_store demoMismatch (demoKernelWith 0x4A 0x08) 200000 7).2.1.pll_m = 8 ∧
      fsb_freq_store_step 200000 = frequencyToStep 200000 ∧
      ∃ data : List Nat,
        written_blocks (fsb_freq_store demoMismatch (demoKernelWith 0x4A 0x08) 200000 7).2.2.trace
          = written_blocks (demoKernelWith 0x4A 0x08).trace ++ [data] ∧
        (data.getD 0x0B 0, data.getD 0x0C 0) = encodeByStep (frequencyToStep 200000) 8) :=
  ⟨by decide, by decide,
   C4_setFrequency demoMismatch (demoKernelWith 0x4A 0x08) 200000 7 (by decide) (by decide)
     rfl rfl rfl⟩

/-- C5: for control bytes `h`, `l` in `[0,255]` of a successfully read block,
`ics9lpr363_GetFSB` fails exactly when the top two bits of `h` are `00` (returning `-1` with
the unexpected-byte error); otherwise it returns `0` with step `l + 256 * m` (`m = 0, 1, 2`
for top bits `10`, `01`, `11`), raw word `256 * h + l`, actual divisor `h & 0x3F`, and the
frequency `stepToFrequency step` when that divisor is 8, and `-1` with an informational
message otherwise. -/
theorem C5_GetFSB_decode (g : Globals) (k : Kernel) (h l : Nat)
    (ha : k.adapter_ok = true) (hc : k.client_ok = true) (hr : k.read_ok = true)
    (hB : read_buf k 0x0B = h) (hC : read_buf k 0x0C = l) (hh : h < 256) (hl : l < 256) :
    ((ics9lpr363_GetFSB g k).1 ≠ 0 ↔ h >>> 6 = 0b00) ∧
    (h >>> 6 = 0b00 →
      (ics9lpr363_GetFSB g k).1 = -1 ∧
      (ics9lpr363_GetFSB g k).2.2.dmesg = k.dmesg ++ [.err_unexpected_0B g.i2c_addr]) ∧
    (h >>> 6 ≠ 0b00 →
      (ics9lpr363_GetFSB g k).1 = 0 ∧
      (ics9lpr363_GetFSB g k).2.1.pll_step =
        (l : Int) + 256 * (if h >>> 6 = 0b10 then 0 else if h >>> 6 = 0b01 then 1 else 2) ∧
      (ics9lpr363_GetFSB g k).2.1.raw_ctrl_word = 256 * h + l ∧
      (ics9lpr363_GetFSB g k).2.1.pll_m_actual = ((h &&& 0x3F : Nat) : Int) ∧
      (h &&& 0x3F = 8 →
        (ics9lpr363_GetFSB g k).2.1.fsb_freq =
          stepToFrequency (ics9lpr363_GetFSB g k).2.1.pll_step) ∧
      (h &&& 0x3F ≠ 8 →
        (ics9lpr363_GetFSB g k).2.1.fsb_freq = -1 ∧
        (ics9lpr363_GetFSB g k).2.2.dmesg = k.dmesg ++ [.info_unknown_pll_m])) :=
  GetFSB_decodes g k h l ha hc hr hB hC hh hl

/-- Witness for C5: `(0x4A, 0x08)` decodes to step 264, divisor 10, frequency undefined;
`(0x00, 0x55)` is rejected. -/
theorem C5_GetFSB_decode_witness :
    ((ics9lpr363_GetFSB Globals.init (demoKernelWith 0x4A 0x08)).1 = 0 ∧
      (ics9lpr363_GetFSB Globals.init (demoKernelWith 0x4A 0x08)).2.1.pll_step = 264 ∧
      (ics9lpr363_GetFSB Globals.init (demoKernelWith 0x4A 0x08)).2.1.pll_m_actual = 10 ∧
      (ics9lpr363_GetFSB Globals.init (demoKernelWith 0x4A 0x08)).2.1.fsb_freq = -1) ∧
    (ics9lpr363_GetFSB Globals.init (demoKernelWith 0x00 0x55)).1 = -1 :=
  ⟨⟨((C5_GetFSB_decode Globals.init (demoKernelWith 0x4A 0x08) 0x4A 0x08 rfl rfl rfl rfl rfl
        (by decide) (by decide)).2.2 (by decide)).1,
     ((C5_GetFSB_decode Globals.init (demoKernelWith 0x4A 0x08) 0x4A 0x08 rfl rfl rfl rfl rfl
        (by decide) (by decide)).2.2 (by decide)).2.1,
     ((C5_GetFSB_decode Globals.init (demoKernelWith 0x4A 0x08) 0x4A 0x08 rfl rfl rfl rfl rfl
        (by decide) (by decide)).2.2 (by decide)).2.2.2.1,
     (((C5_GetFSB_decode Globals.init (demoKernelWith 0x4A 0x08) 0x4A 0x08 rfl rfl rfl rfl rfl
        (by decide) (by decide)).2.2 (by decide)).2.2.2.2.2 (by decide)).1⟩,
   ((C5_GetFSB_decode Globals.init (demoKernelWith 0x00 0x55) 0x00 0x55 rfl rfl rfl rfl rfl
      (by decide) (by decide)).2.1 (by decide)).1⟩

/-- C6: for every step in `[0,767]`, when the block read delivers the two control bytes
that `set_by_pll_step_logic` writes for that step with `pll_m = 8`, `ics9lpr363_GetFSB`
succeeds and decodes the original step. -/
theorem C6_roundtrip (g g' : Globals) (k : Kernel) (buf : Nat → Nat) (step : Int)
    (h0 : 0 ≤ step) (h1 : step ≤ 767) (hs : g.pll_step = step) (hm : g.pll_m = 8)
    (ha : k.adapter_ok = true) (hc : k.client_ok = true) (hr : k.read_ok = true)
    (hB : read_buf k 0x0B = set_by_pll_step_logic g buf 0x0B)
    (hC : read_buf k 0x0C = set_by_pll_step_logic g buf 0x0C) :
    (ics9lpr363_GetFSB g' k).1 = 0 ∧ (ics9lpr363_GetFSB g' k).2.1.pll_step = step := by
  have hb := set_by_pll_step_logic_bytes g buf
  rw [hs, hm] at hb
  have hb1 : set_by_pll_step_logic g buf 0x0B = (encodeByStep step 8).1 := congrArg Prod.fst hb
  have hb2 : set_by_pll_step_logic g buf 0x0C = (encodeByStep step 8).2 := congrArg Prod.snd hb
  obtain ⟨f1, f2, f3, f4, -⟩ := encodeByStep_facts step 8 h0 h1
  obtain ⟨-, -, hd⟩ := GetFSB_decodes g' k _ _ ha hc hr (hB.trans hb1) (hC.trans hb2) f1 f2
  obtain ⟨r0, rs, -⟩ := hd f3
  exact ⟨r0, rs.trans f4⟩

/-- Witness for C6: step 300 is encoded as `(0x48, 0x2C)` and decoded back to 300. -/
theorem C6_roundtrip_witness :
    (ics9lpr363_GetFSB Globals.init (demoKernelWith 0x48 0x2C)).1 = 0 ∧
    (ics9lpr363_GetFSB Globals.init (demoKernelWith 0x48 0x2C)).2.1.pll_step = 300 :=
  C6_roundtrip { Globals.init with pll_step := 300 } Globals.init (demoKernelWith 0x48 0x2C)
    (fun _ => 0) 300 (by decide) (by decide) rfl rfl rfl rfl rfl (by decide) (by decide)

/-- C7: for every frequency `f` in `[94500,369000]` the step `fsb_freq_store` computes is
`frequencyToStep f`, the frequency `ics9lpr363_GetFSB` reports for it is
`stepToFrequency (frequencyToStep f)`, and that value differs from `f` by at most 358 KHz. -/
theorem C7_frequency_quantization (f : Int) (h0 : 94500 ≤ f) (h1 : f ≤ 369000) :
    fsb_freq_store_step f = frequencyToStep f ∧
    GetFSB_freq (fsb_freq_store_step f) = stepToFrequency (frequencyToStep f) ∧
    |stepToFrequency (frequencyToStep f) - f| ≤ 358 := by
  have hs := frequencyToStep_eq f h0 h1
  have hs0 : 0 ≤ frequencyToStep f := by omega
  have hs1 : frequencyToStep f ≤ 767 := by omega
  have e : fsb_freq_store_step f = frequencyToStep f := by
    rw [fsb_freq_store_step_eq f h0 h1, hs]
  refine ⟨e, ?_, ?_⟩
  · rw [e, GetFSB_freq_eq _ hs0 hs1, stepToFrequency_eq _ hs0]
  · rw [stepToFrequency_eq _ hs0, hs, abs_le]
    omega

/-- Witness for C7: 200000 KHz is reported back as 199693 KHz. -/
theorem C7_frequency_quantization_witness :
    stepToFrequency (frequencyToStep 200000) = 199693 ∧
    (fsb_freq_store_step 200000 = frequencyToStep 200000 ∧
      GetFSB_freq (fsb_freq_store_step 200000) = stepToFrequency (frequencyToStep 200000) ∧
      |stepToFrequency (frequencyToStep 200000) - 200000| ≤ 358) :=
  ⟨by decide, C7_frequency_quantization 200000 (by decide) (by decide)⟩

/-- C8: the code at the failing inputs. On a working bus whose chip stores what is
written, the successful `pll_step_store 100` ends with the block write (no read follows it)
and holds raw word `0x8800` and frequency 94500 while the block after the write decodes to
`0x8864` and 130280; the successful `raw_store 0x4826` ends with the block write and holds
step, divisor and frequency `-1` while the block after the write decodes to step 294,
divisor 8 and 199693 KHz. The sibling `fsb_freq_store 200000` does read the block again
after its write and holds exactly what the block after the write decodes to. -/
theorem C8_store_skips_reread :
    (pll_step_store Globals.init demoKernel 100 4).1 = 4 ∧
    (pll_step_store Globals.init demoKernel 100 4).2.2.trace =
      [.get_adapter 0, .new_device 0x69, .read_block 0x69 0, .unregister_device, .put_adapter,
       .get_adapter 0, .new_device 0x69, .read_block 0x69 0,
       .write_block 0x69 0 21
         [0, 1, 2, 3, 4, 5, 6, 7, 8, 9, 10, 0x88, 100, 13, 14, 15, 16, 17, 18, 19, 20],
       .unregister_device, .put_adapter] ∧
    snapshot (pll_step_store Globals.init demoKernel 100 4).2.1 = (100, 0x8800, 8, 94500) ∧
    snapshot (ics9lpr363_GetFSB (pll_step_store Globals.init demoKernel 100 4).2.1
      (pll_step_store Globals.init demoKernel 100 4).2.2).2.1 = (100, 0x8864, 8, 130280) ∧
    snapshot (pll_step_store Globals.init demoKernel 100 4).2.1 ≠
      snapshot (ics9lpr363_GetFSB (pll_step_store Globals.init demoKernel 100 4).2.1
        (pll_step_store Globals.init demoKernel 100 4).2.2).2.1 ∧
    (raw_store Globals.init demoKernel 0x4826 6).1 = 6 ∧
    (raw_store Globals.init demoKernel 0x4826 6).2.2.trace =
      [.get_adapter 0, .new_device 0x69, .read_block 0x69 0,
       .write_block 0x69 0 21
         [0, 1, 2, 3, 4, 5, 6, 7, 8, 9, 10, 0x48, 0x26, 13, 14, 15, 16, 17, 18, 19, 20],
       .unregister_device, .put_adapter] ∧
    snapshot (raw_store Globals.init demoKernel 0x4826 6).2.1 = (-1, 0x4826, -1, -1) ∧
    snapshot (ics9lpr363_GetFSB (raw_store Globals.init demoKernel 0x4826 6).2.1
      (raw_store Globals.init demoKernel 0x4826 6).2.2).2.1 = (294, 0x4826, 8, 199693) ∧
    snapshot (raw_store Globals.init demoKernel 0x4826 6).2.1 ≠
      snapshot (ics9lpr363_GetFSB (raw_store Globals.init demoKernel 0x4826 6).2.1
        (raw_store Globals.init demoKernel 0x4826 6).2.2).2.1 ∧
    (fsb_freq_store Globals.init demoKernel 200000 7).1 = 7 ∧
    (fsb_freq_store Globals.init demoKernel 200000 7).2.2.trace =
      [.get_adapter 0, .new_device 0x69, .read_block 0x69 0,
       .write_block 0x69 0 21
         [0, 1, 2, 3, 4, 5, 6, 7, 8, 9, 10, 0x48, 0x26, 13, 14, 15, 16, 17, 18, 19, 20],
       .unregister_device, .put_adapter,
       .get_adapter 0, .new_device 0x69, .read_block 0x69 0, .unregister_device,
       .put_adapter] ∧
    snapshot (fsb_freq_store Globals.init demoKernel 200000 7).2.1 =
      (294, 0x4826, 8, 199693) ∧
    snapshot (fsb_freq_store Globals.init demoKernel 200000 7).2.1 =
      snapshot (ics9lpr363_GetFSB (fsb_freq_store Globals.init demoKernel 200000 7).2.1
        (fsb_freq_store Globals.init demoKernel 200000 7).2.2).2.1 := by
  decide

/-- C9, counterexample: it is not the case that both the compensation and the clamp change
the control bytes for some accepted frequency; the clamp changes them for none. -/
theorem C9_clamp_counterexample :
    ¬ ((∃ f : Int, 94500 ≤ f ∧ f ≤ 369000 ∧
          ctrl_bytes_by_step (fsb_freq_store_step f) 8 ≠
            ctrl_bytes_by_step (fsb_freq_store_step_noComp f) 8) ∧
       (∃ f : Int, 94500 ≤ f ∧ f ≤ 369000 ∧
          ctrl_bytes_by_step (fsb_freq_store_step f) 8 ≠
            ctrl_bytes_by_step (fsb_freq_store_step_noClamp f) 8)) := by
  rintro ⟨-, f, h0, h1, hne⟩
  apply hne
  rw [fsb_freq_store_step_eq f h0 h1, fsb_freq_store_step_noClamp_eq f h0 h1]

/-- C9 (amended): the `+2` compensation is load-bearing (for some accepted frequency the
control bytes differ from those computed without it), while the clamp is never active on an
accepted frequency: the unclamped step lies in `[0,767]` and the control bytes are the same
with and without the clamp. -/
theorem C9_compensation_load_bearing_clamp_inactive :
    (∃ f : Int, 94500 ≤ f ∧ f ≤ 369000 ∧
        ctrl_bytes_by_step (fsb_freq_store_step f) 8 ≠
          ctrl_bytes_by_step (fsb_freq_store_step_noComp f) 8) ∧
    (∀ f : Int, 94500 ≤ f → f ≤ 369000 →
        0 ≤ fsb_freq_store_step_noClamp f ∧ fsb_freq_store_step_noClamp f ≤ 767 ∧
        fsb_freq_store_step_noClamp f = fsb_freq_store_step f ∧
        ctrl_bytes_by_step (fsb_freq_store_step f) 8 =
          ctrl_bytes_by_step (fsb_freq_store_step_noClamp f) 8) := by
  refine ⟨⟨94857, by decide, by decide, by decide⟩, ?_⟩
  intro f h0 h1
  have e1 := fsb_freq_store_step_eq f h0 h1
  have e2 := fsb_freq_store_step_noClamp_eq f h0 h1
  refine ⟨by omega, by omega, by rw [e1, e2], by rw [e1, e2]⟩

/-- Witness for C9 (amended): at 94857 KHz the compensation changes the low control
byte from 0 to 1; at 369000 KHz the unclamped step is 767 already. -/
theorem C9_compensation_load_bearing_clamp_inactive_witness :
    ctrl_bytes_by_step (fsb_freq_store_step 94857) 8 = (0x88, 1) ∧
    ctrl_bytes_by_step (fsb_freq_store_step_noComp 94857) 8 = (0x88, 0) ∧
    fsb_freq_store_step 369000 = 767 ∧
    fsb_freq_store_step_noClamp 369000 = fsb_freq_store_step 369000 :=
  ⟨by decide, by decide, by decide,
   (C9_compensation_load_bearing_clamp_inactive.2 369000 (by decide) (by decide)).2.2.1⟩

/-- C10: for every step `s` in `[0,767]` the frequency `ics9lpr363_GetFSB` reports is
`stepToFrequency s`, it passes the range check of `fsb_freq_store` (it lies in
`[94500,369000]`), and converting it back gives `s`, both by the specification formula and by
the computation in `fsb_freq_store`. -/
theorem C10_reported_frequency_is_fixed_point (s : Int) (h0 : 0 ≤ s) (h1 : s ≤ 767) :
    GetFSB_freq s = stepToFrequency s ∧
    ¬ (GetFSB_freq s < FSB_MIN ∨ GetFSB_freq s > FSB_MAX) ∧
    94500 ≤ stepToFrequency s ∧ stepToFrequency s ≤ 369000 ∧
    frequencyToStep (stepToFrequency s) = s ∧
    fsb_freq_store_step (GetFSB_freq s) = s := by
  have hf := stepToFrequency_eq s h0
  have hg := GetFSB_freq_eq s h0 h1
  have l1 : 94500 ≤ stepToFrequency s := by omega
  have l2 : stepToFrequency s ≤ 369000 := by omega
  refine ⟨by rw [hg, hf], ?_, l1, l2, ?_, ?_⟩
  · simp only [FSB_MIN, FSB_MAX]; omega
  · rw [frequencyToStep_eq _ l1 l2, hf]; omega
  · rw [fsb_freq_store_step_eq _ (by omega) (by omega), hg]; omega

/-- Witness for C10: step 294 is reported as 199693 KHz, which converts back to 294. -/
theorem C10_reported_frequency_is_fixed_point_witness :
    stepToFrequency 294 = 199693 ∧
    (GetFSB_freq 294 = stepToFrequency 294 ∧
      ¬ (GetFSB_freq 294 < FSB_MIN ∨ GetFSB_freq 294 > FSB_MAX) ∧
      94500 ≤ stepToFrequency 294 ∧ stepToFrequency 294 ≤ 369000 ∧
      frequencyToStep (stepToFrequency 294) = 294 ∧
      fsb_freq_store_step (GetFSB_freq 294) = 294) :=
  ⟨by decide, C10_reported_frequency_is_fixed_point 294 (by decide) (by decide)⟩

end ICS9LPR363
